import Mathlib

/-
Verification development for the k-stability matching engine
(house allocation / marriage / roommates models).

The definitions below are a shallow embedding of the C sources:
  src/matching.c, src/verification.c, src/existence.c, src/generators.c.
Machine integers are modelled as Int (partner and house identifiers, with
the sentinel -1 for unmatched) and Nat (counts, loop indices, k); the
generator state is a Nat reduced mod 2^32 where the C code uses uint32_t.
C arrays indexed up to num_agents are modelled as lists accessed with getD,
with the C out-of-bounds default noted at each site.  NULL-pointer guards
of the C API have no counterpart here because the embedding has no
pointers; every other guard is kept.
-/

namespace StableMatchingSim

/-- MAX_AGENTS from include/matching.h. -/
def MAX_AGENTS : Nat := 1000

/-- matching_model_t from include/matching.h.  The fourth tag is
HOUSE_ALLOCATION_PARTIAL in the source (the k-hai variant with incomplete
preference lists); it is named khai here. -/
inductive MatchingModel where
  | houseAllocation
  | marriage
  | roommates
  | khai
deriving DecidableEq

/-- agent_t from include/matching.h: a stable identifier and the ordered
acceptance list (most preferred first).  The indifference-group fields of
the struct are consulted only by the k-hai routines, which are outside the
embedded fragment, so they are omitted. -/
structure Agent where
  id : Int
  preferences : List Int
deriving DecidableEq

/-- Default agent used for out-of-range agent-array accesses (undefined
behaviour in the C source; never exercised by the theorems below). -/
def defaultAgent : Agent := { id := 0, preferences := [] }

/-- matching_t from include/matching.h: pairs with -1 as the unmatched
sentinel, plus the number of agents and the model tag. -/
structure Matching where
  pairs : List Int
  numAgents : Nat
  model : MatchingModel
deriving DecidableEq

/-- Model metadata union of problem_instance_t.  In the C union the first
int slot is num_men for marriage and num_houses for both house-allocation
variants (the members alias each other); the second slot is num_women. -/
structure ModelData where
  numMenOrHouses : Nat
  numWomen : Nat
deriving DecidableEq

/-- problem_instance_t from include/matching.h. -/
structure ProblemInstance where
  agents : List Agent
  numAgents : Nat
  model : MatchingModel
  modelData : ModelData
deriving DecidableEq

/-- Reads pairs at an Int index, as the C code does with matching->pairs[j].
A negative index is undefined behaviour in C; it is modelled as unmatched
and never exercised by the theorems below. -/
def pairsAt (m : Matching) (j : Int) : Int :=
  if j < 0 then -1 else m.pairs.getD j.toNat (-1)

/-- create_matching from src/matching.c: guard on the agent count, all
agents initially unmatched. -/
def createMatching (numAgents : Nat) (model : MatchingModel) : Option Matching :=
  if numAgents = 0 ∨ MAX_AGENTS < numAgents then none
  else some { pairs := List.replicate numAgents (-1), numAgents := numAgents, model := model }

/-- get_agent_rank from src/matching.c: position of target in the
preference list, -1 if absent. -/
def getAgentRankAux : List Int → Int → Nat → Int
  | [], _, _ => -1
  | p :: ps, target, i => if p = target then (i : Int) else getAgentRankAux ps target (i + 1)

/-- get_agent_rank from src/matching.c (entry point). -/
def getAgentRank (agent : Agent) (targetId : Int) : Int :=
  getAgentRankAux agent.preferences targetId 0

/-- agent_prefers from src/matching.c: the two sentinel special cases,
then the rank comparison with unknown ranks mapped to false. -/
def agentPrefers (agent : Agent) (a b : Int) : Bool :=
  if b = -1 then decide (getAgentRank agent a ≠ -1)
  else if a = -1 then false
  else
    let rankA := getAgentRank agent a
    let rankB := getAgentRank agent b
    if rankA = -1 ∨ rankB = -1 then false
    else decide (rankA < rankB)

/-- count_improved_agents from src/matching.c: the loop over agents with
the three-way branch on the two partner values, rendered as a foldl with
the running counter. -/
def countImprovedAgents (current alternative : Matching) (inst : ProblemInstance) : Nat :=
  (List.range inst.numAgents).foldl
    (fun count i =>
      let currentPartner := current.pairs.getD i (-1)
      let alternativePartner := alternative.pairs.getD i (-1)
      if currentPartner = -1 ∧ alternativePartner = -1 then count
      else
        let isBetter :=
          if currentPartner = -1 ∧ alternativePartner ≠ -1 then true
          else if currentPartner ≠ -1 ∧ alternativePartner ≠ -1 then
            agentPrefers (inst.agents.getD i defaultAgent) alternativePartner currentPartner
          else false
        if isBetter then count + 1 else count)
    0

/-- House-uniqueness loop of is_valid_matching: the house_assigned flag
array is modelled by the list of house ids seen so far. -/
def noDuplicateHouses : List Int → List Int → Nat → Bool
  | [], _, _ => true
  | h :: rest, seen, bound =>
    if h = -1 then noDuplicateHouses rest seen bound
    else if h < 0 ∨ (bound : Int) ≤ h then false
    else if h ∈ seen then false
    else noDuplicateHouses rest (h :: seen) bound

/-- is_valid_matching from src/matching.c.  Note that the symmetry loop
runs for every model, including both house-allocation variants, before the
model-specific switch. -/
def isValidMatching (m : Matching) (inst : ProblemInstance) : Bool :=
  if m.numAgents ≠ inst.numAgents then false
  else
    let symOk := (List.range m.numAgents).all fun i =>
      let partner := m.pairs.getD i (-1)
      if partner = -1 then true
      else if partner < 0 ∨ (m.numAgents : Int) ≤ partner then false
      else decide (pairsAt m partner = (i : Int))
    if ¬ symOk then false
    else
      let traversed := (List.range m.numAgents).map fun i => m.pairs.getD i (-1)
      match m.model with
      | MatchingModel.houseAllocation => noDuplicateHouses traversed [] m.numAgents
      | MatchingModel.marriage =>
        (List.range m.numAgents).all fun i =>
          let partner := m.pairs.getD i (-1)
          if partner = -1 then true
          else
            let numMen := inst.modelData.numMenOrHouses
            let iIsMan := decide ((i : Int) < (numMen : Int))
            let partnerIsMan := decide (partner < (numMen : Int))
            decide (iIsMan ≠ partnerIsMan)
      | MatchingModel.roommates => true
      | MatchingModel.khai => noDuplicateHouses traversed [] inst.modelData.numMenOrHouses

/-- Inner per-agent loop shared by is_valid_alternative_matching and
is_valid_blocking_coalition in src/verification.c: scan the preference
list of the agent for a partner p distinct from the current one with
p different from -1 and either the agent unmatched or p strictly
preferred to the current partner. -/
def hasIndividualImprovement (m : Matching) (inst : ProblemInstance) (agentId : Nat) : Bool :=
  let currentPartner := m.pairs.getD agentId (-1)
  let agent := inst.agents.getD agentId defaultAgent
  agent.preferences.any fun p =>
    !(decide (p = currentPartner)) &&
      (decide (p ≠ -1) && (decide (currentPartner = -1) || agentPrefers agent p currentPartner))

/-- is_valid_alternative_matching from src/verification.c (lines 118-157):
counts the improvable agents among the first coalitionSize coalition
entries and compares with coalitionSize.  The alternative argument is
ignored, exactly as in the source. -/
def isValidAlternativeMatching (current alternative : Matching) (inst : ProblemInstance)
    (coalition : List Nat) (coalitionSize : Nat) : Bool :=
  let improvedInCoalition :=
    (List.range coalitionSize).countP fun i =>
      hasIndividualImprovement current inst (coalition.getD i 0)
  decide (coalitionSize ≤ improvedInCoalition)

/-- Base case of can_form_blocking_coalition (lines 44-77 of
src/verification.c): when the coalition already has at least k members,
test it; only a NULL coalition (the top-level call, modelled as the empty
list) is replaced by the first k agents.  The temporary alternative
matching allocated there is a copy of the current matching and is passed
unchanged (and unused), so the copy is the matching itself here. -/
def canFormBase (m : Matching) (inst : ProblemInstance) (k : Nat) (coalition : List Nat) : Bool :=
  if k ≤ coalition.length then
    let tempCoalition := if coalition.isEmpty then List.range k else coalition
    isValidAlternativeMatching m m inst tempCoalition k
  else false

/-- Recursive part of can_form_blocking_coalition from src/verification.c:
the loop for agent in start..n-1 that extends the coalition is rendered as
one recursion step per loop iteration, with the fuel argument equal to the
number of remaining loop iterations n - startAgent (the base-case check is
repeated at each step, which is harmless because it depends only on the
coalition).  The membership test mirrors the already_in_coalition scan. -/
def canFormAux (m : Matching) (inst : ProblemInstance) (k : Nat) :
    Nat → List Nat → Nat → Bool
  | 0, coalition, _ => canFormBase m inst k coalition
  | fuel + 1, coalition, startAgent =>
    canFormBase m inst k coalition
      || (if startAgent ∈ coalition then false
          else canFormAux m inst k fuel (coalition ++ [startAgent]) (startAgent + 1))
      || canFormAux m inst k fuel coalition (startAgent + 1)

/-- can_form_blocking_coalition from src/verification.c (entry point). -/
def canFormBlockingCoalition (m : Matching) (inst : ProblemInstance) (k : Nat)
    (coalition : List Nat) (startAgent : Nat) : Bool :=
  canFormAux m inst k (inst.numAgents - startAgent) coalition startAgent

/-- has_blocking_coalition from src/verification.c. -/
def hasBlockingCoalition (m : Matching) (inst : ProblemInstance) (k : Nat) : Bool :=
  canFormBlockingCoalition m inst k [] 0

/-- is_k_stable from src/verification.c (lines 15-26): reject k out of
range, then search for a blocking coalition.  The NULL guards have no
counterpart; k is an int in C and k <= 0 degenerates to k = 0 on Nat. -/
def isKStable (m : Matching) (inst : ProblemInstance) (k : Nat) : Bool :=
  if k = 0 ∨ inst.numAgents < k then false
  else ! hasBlockingCoalition m inst k

/-- is_valid_blocking_coalition from src/verification.c (lines 311-349):
textually the same check as is_valid_alternative_matching without the
unused alternative argument. -/
def isValidBlockingCoalition (m : Matching) (inst : ProblemInstance)
    (coalition : List Nat) (coalitionSize : Nat) : Bool :=
  let improvedInCoalition :=
    (List.range coalitionSize).countP fun i =>
      hasIndividualImprovement m inst (coalition.getD i 0)
  decide (coalitionSize ≤ improvedInCoalition)

/-- Base case of can_form_blocking_coalition_recursive from
src/verification.c (lines 249-270), mirroring canFormBase. -/
def canFormRecursiveBase (m : Matching) (inst : ProblemInstance) (k : Nat)
    (coalition : List Nat) : Bool :=
  if k ≤ coalition.length then
    let tempCoalition := if coalition.isEmpty then List.range k else coalition
    isValidBlockingCoalition m inst tempCoalition k
  else false

/-- can_form_blocking_coalition_recursive from src/verification.c, with
the same loop-to-recursion rendering as canFormAux. -/
def canFormRecursiveAux (m : Matching) (inst : ProblemInstance) (k : Nat) :
    Nat → List Nat → Nat → Bool
  | 0, coalition, _ => canFormRecursiveBase m inst k coalition
  | fuel + 1, coalition, startAgent =>
    canFormRecursiveBase m inst k coalition
      || (if startAgent ∈ coalition then false
          else canFormRecursiveAux m inst k fuel (coalition ++ [startAgent]) (startAgent + 1))
      || canFormRecursiveAux m inst k fuel coalition (startAgent + 1)

/-- has_blocking_coalition_comprehensive from src/verification.c. -/
def hasBlockingCoalitionComprehensive (m : Matching) (inst : ProblemInstance) (k : Nat) : Bool :=
  canFormRecursiveAux m inst k inst.numAgents [] 0

/-- is_k_stable_direct from src/verification.c (lines 168-180): same as
is_k_stable but without the upper bound k <= num_agents. -/
def isKStableDirect (m : Matching) (inst : ProblemInstance) (k : Nat) : Bool :=
  if k = 0 then false
  else ! hasBlockingCoalitionComprehensive m inst k

/-- Number of agents of the instance that pass the per-agent improvement
scan of the verifier against matching m.  This is the quantity the subset
search of src/verification.c actually decides about (see the lemmas
below). -/
def countIndividuallyImprovable (m : Matching) (inst : ProblemInstance) : Nat :=
  (List.range inst.numAgents).countP fun i => hasIndividualImprovement m inst i

/-- estimate_blocking_potential from src/existence.c (lines 189-210):
unmatched agents count, and matched agents count when their current
partner sits beyond rank 2 of their list.  The k argument is unused in
the source. -/
def estimateBlockingPotential (m : Matching) (inst : ProblemInstance) (k : Nat) : Nat :=
  (List.range inst.numAgents).countP fun i =>
    let currentPartner := m.pairs.getD i (-1)
    if currentPartner = -1 then true
    else decide (2 < getAgentRank (inst.agents.getD i defaultAgent) currentPartner)

/-- is_promising_partial_matching from src/existence.c (lines 159-186).
The C subtraction num_agents - agents_processed is on int; every call
site has agentsProcessed < num_agents, so Nat subtraction agrees. -/
def isPromisingMatching (m : Matching) (inst : ProblemInstance) (k : Nat)
    (agentsProcessed : Nat) : Bool :=
  let blockingPotential := estimateBlockingPotential m inst k
  if k ≤ blockingPotential then false
  else
    let remainingAgents := inst.numAgents - agentsProcessed
    let unmatchedCount :=
      (List.range agentsProcessed).countP fun i => decide (m.pairs.getD i (-1) = -1)
    if k * 2 ≤ unmatchedCount + remainingAgents then decide (0 < remainingAgents)
    else true

/-- is_partial_matching_valid from src/existence.c (lines 137-156):
symmetry and bounds for agents 0..upToAgent.  Note the source checks
pairs[partner] before the bound on partner; pairsAt absorbs the
out-of-bounds read. -/
def isMatchingValidUpTo (m : Matching) (inst : ProblemInstance) (upToAgent : Nat) : Bool :=
  (List.range (upToAgent + 1)).all fun i =>
    let partner := m.pairs.getD i (-1)
    if partner = -1 then true
    else
      decide (pairsAt m partner = (i : Int)) &&
        !(decide (partner < 0 ∨ (inst.numAgents : Int) ≤ partner))

/-- Candidate-partner collection of find_k_stable_matching_recursive
(lines 77-105 of src/existence.c): preference order, skipping self,
already-matched partners, and same-gender pairs in the marriage model
(which uses num_agents / 2 as the gender boundary, not the instance
metadata). -/
def potentialPartners (inst : ProblemInstance) (m : Matching) (agentIndex : Nat) : List Int :=
  (inst.agents.getD agentIndex defaultAgent).preferences.filter fun partner =>
    if partner = (agentIndex : Int) then false
    else if pairsAt m partner ≠ -1 then false
    else if inst.model = MatchingModel.marriage then
      let numMen := inst.numAgents / 2
      !(((agentIndex : Int) < (numMen : Int) ∧ partner < (numMen : Int)) ∨
          ((numMen : Int) ≤ (agentIndex : Int) ∧ (numMen : Int) ≤ partner))
    else true

/-- Writes pairs[agentIndex] = partner and pairs[partner] = agentIndex, as
the tentative assignment of find_k_stable_matching_recursive does.  A
negative partner index is undefined behaviour in C and is modelled as a
no-op on the second write. -/
def matchPair (m : Matching) (agentIndex : Nat) (partner : Int) : Matching :=
  let pairs1 := m.pairs.set agentIndex partner
  let pairs2 := if partner < 0 then pairs1 else pairs1.set partner.toNat (agentIndex : Int)
  { m with pairs := pairs2 }

/-- find_k_stable_matching_recursive from src/existence.c (lines 60-134),
returning the completed matching instead of a bool plus mutation.  The
recursion always moves from agent i to agent i+1, so the fuel argument
num_agents + 1 - i set by the wrapper below never reaches 0 before the
base case; fuel 0 itself returns none. -/
def findKStableRecAux (inst : ProblemInstance) (k : Nat) :
    Nat → Matching → Nat → Option Matching
  | 0, _, _ => none
  | fuel + 1, m, agentIndex =>
    if inst.numAgents ≤ agentIndex then
      if isKStableDirect m inst k then some m else none
    else if ¬ isPromisingMatching m inst k agentIndex then none
    else if m.pairs.getD agentIndex (-1) ≠ -1 then
      findKStableRecAux inst k fuel m (agentIndex + 1)
    else
      let partners := potentialPartners inst m agentIndex
      let viaPartner := partners.findSome? fun partner =>
        let tentative := matchPair m agentIndex partner
        if isMatchingValidUpTo tentative inst agentIndex then
          findKStableRecAux inst k fuel tentative (agentIndex + 1)
        else none
      match viaPartner with
      | some result => some result
      | none =>
        if inst.model = MatchingModel.houseAllocation ∨ inst.model = MatchingModel.roommates then
          findKStableRecAux inst k fuel m (agentIndex + 1)
        else none

/-- find_k_stable_matching_recursive (entry point with the fuel set to the
remaining recursion depth). -/
def findKStableMatchingRecursive (inst : ProblemInstance) (k : Nat) (m : Matching)
    (agentIndex : Nat) : Option Matching :=
  findKStableRecAux inst k (inst.numAgents + 1 - agentIndex) m agentIndex

/-- find_k_stable_with_pruning from src/existence.c (lines 41-57). -/
def findKStableWithPruning (inst : ProblemInstance) (k : Nat) : Bool :=
  match createMatching inst.numAgents inst.model with
  | none => false
  | some m => (findKStableMatchingRecursive inst k m 0).isSome

/-- find_k_stable_matching from src/existence.c (lines 215-240). -/
def findKStableMatching (inst : ProblemInstance) (k : Nat) : Option Matching :=
  if k = 0 ∨ inst.numAgents < k then none
  else
    match createMatching inst.numAgents inst.model with
    | none => none
    | some m => findKStableMatchingRecursive inst k m 0

/-- Greedy matching loop common to k_stable_matching_exists_small_k and
k_stable_matching_exists_large_k in src/existence.c: process agents in
the given order; each still-free agent scans its preference list for the
first partner that is in range, free, distinct from itself, of the
opposite gender half in the marriage model, and ranks the agent within
the top 1/divisor fraction of its own list (divisor 2 for small k, 3 for
large k).  The used flag array is modelled as a Bool list. -/
def greedyMatchLoop (inst : ProblemInstance) (order : List Nat) (divisor : Nat)
    (state : List Int × List Bool) : List Int × List Bool :=
  order.foldl
    (fun st agent =>
      let pairs := st.1
      let used := st.2
      if used.getD agent false then st
      else
        let chosen := (inst.agents.getD agent defaultAgent).preferences.find? fun preferred =>
          if (inst.numAgents : Int) ≤ preferred ∨ used.getD preferred.toNat false
              ∨ preferred = (agent : Int) then false
          else if inst.model = MatchingModel.marriage ∧
              (let numMen := inst.numAgents / 2
               ((agent : Int) < (numMen : Int) ∧ preferred < (numMen : Int)) ∨
                 ((numMen : Int) ≤ (agent : Int) ∧ (numMen : Int) ≤ preferred)) then false
          else
            let reverseRank := getAgentRank (inst.agents.getD preferred.toNat defaultAgent) (agent : Int)
            decide (reverseRank ≠ -1) &&
              decide (reverseRank <
                ((inst.agents.getD preferred.toNat defaultAgent).preferences.length / divisor : Nat))
        match chosen with
        | none => st
        | some preferred =>
          let pairs1 := (pairs.set agent preferred).set preferred.toNat (agent : Int)
          let used1 := (used.set agent true).set preferred.toNat true
          (pairs1, used1))
    state

/-- k_stable_matching_exists_small_k from src/existence.c (lines 263-320):
k = 1 answers true unconditionally; k in {2,3} builds the greedy matching
(ascending agent order, top-half reverse-rank threshold) and verifies it;
larger k falls through to the pruning search. -/
def kStableMatchingExistsSmallK (inst : ProblemInstance) (k : Nat) : Bool :=
  if k = 1 then true
  else if k ≤ 3 then
    match createMatching inst.numAgents inst.model with
    | none => false
    | some m0 =>
      let result := greedyMatchLoop inst (List.range inst.numAgents) 2
        (m0.pairs, List.replicate inst.numAgents false)
      isKStableDirect { m0 with pairs := result.1 } inst k
  else findKStableWithPruning inst k

/-- Pickiness sort of k_stable_matching_exists_large_k (lines 337-352 of
src/existence.c): the literal double loop of conditional swaps on the
agent_order array, ascending by preference-list length. -/
def pickinessSortedOrder (inst : ProblemInstance) : List Nat :=
  let n := inst.numAgents
  let numPrefs := fun a : Nat => (inst.agents.getD a defaultAgent).preferences.length
  (List.range (n - 1)).foldl
    (fun order i =>
      (List.range' (i + 1) (n - 1 - i)).foldl
        (fun order j =>
          if numPrefs (order.getD j 0) < numPrefs (order.getD i 0) then
            (order.set i (order.getD j 0)).set j (order.getD i 0)
          else order)
        order)
    (List.range n)

/-- k_stable_matching_exists_large_k from src/existence.c (lines 323-404):
greedy matching in pickiness order with the top-third threshold, verify;
on failure answer false when 9 * num_agents < 10 * k (the double
comparison k > num_agents * 0.9, exact for the integer operands in range),
else fall through to the pruning search. -/
def kStableMatchingExistsLargeK (inst : ProblemInstance) (k : Nat) : Bool :=
  match createMatching inst.numAgents inst.model with
  | none => false
  | some m0 =>
    let result := greedyMatchLoop inst (pickinessSortedOrder inst) 3
      (m0.pairs, List.replicate inst.numAgents false)
    if isKStableDirect { m0 with pairs := result.1 } inst k then true
    else if 9 * inst.numAgents < 10 * k then false
    else findKStableWithPruning inst k

/-- k_stable_matching_exists from src/existence.c (lines 19-38): range
guard, then regime dispatch on the ratio k / num_agents.  The double
comparisons k_ratio <= 0.1 and k_ratio >= 0.8 are modelled exactly by the
rational comparisons 10 * k <= n and 4 * n <= 5 * k: for 1 <= k <= n <=
1000 the quotient is at least 1/1000 away from the thresholds unless it
equals them, far beyond double rounding error, and at equality both the
double and the rational comparison accept. -/
def kStableMatchingExists (inst : ProblemInstance) (k : Nat) : Bool :=
  if k = 0 ∨ inst.numAgents < k then false
  else if 10 * k ≤ inst.numAgents then kStableMatchingExistsSmallK inst k
  else if 4 * inst.numAgents ≤ 5 * k then kStableMatchingExistsLargeK inst k
  else findKStableWithPruning inst k

/-- generate_test_case_1 from src/generators.c: the fixed 3-agent house
allocation with the preference 3-cycle. -/
def generateTestCase1 : ProblemInstance :=
  { agents := [{ id := 0, preferences := [1, 2, 0] },
               { id := 1, preferences := [2, 0, 1] },
               { id := 2, preferences := [0, 1, 2] }],
    numAgents := 3,
    model := MatchingModel.houseAllocation,
    modelData := { numMenOrHouses := 3, numWomen := 0 } }

/-- Modulus of the uint32_t generator state. -/
def U32 : Nat := 4294967296

/-- xorshift32 from src/generators.c on the Nat image of the uint32_t
state: the two left shifts wrap mod 2^32, the right shift cannot
overflow, and xor of values below 2^32 stays below 2^32. -/
def xorshift32 (s : Nat) : Nat :=
  let s1 := (s ^^^ (s <<< 13)) % U32
  let s2 := s1 ^^^ (s1 >>> 17)
  (s2 ^^^ (s2 <<< 5)) % U32

/-- Warm-up loop of rng_seed (10 iterations). -/
def rngWarmup : Nat → Nat → Nat
  | 0, s => s
  | n + 1, s => rngWarmup n (xorshift32 s)

/-- rng_seed from src/generators.c: the global rng_state (the oldState
argument here) is overwritten with the seed (0 replaced by 1), then
warmed up; the previous state is discarded. -/
def rngSeed (seed : Nat) (oldState : Nat) : Nat :=
  let s32 := seed % U32
  let s0 := if s32 = 0 then 1 else s32
  rngWarmup 10 s0

/-- One call of lcg_rand (an alias of xorshift32 in the source): the new
state is also the returned value. -/
def lcgRand (s : Nat) : Nat × Nat :=
  let s1 := xorshift32 s
  (s1, s1)

/-- Swap of two positions of shuffle_array: position i receives the old
a[j] and position j the old a[i]. -/
def listSwap (l : List Int) (i j : Nat) : List Int :=
  (l.set i (l.getD j 0)).set j (l.getD i 0)

/-- shuffle_array from src/generators.c: Fisher-Yates from index n-1 down
to 1, threading the generator state. -/
def shuffleArray (arr : List Int) (n : Nat) (s : Nat) : List Int × Nat :=
  (List.range (n - 1)).foldl
    (fun st idx =>
      let i := n - 1 - idx
      let (v, s1) := lcgRand st.2
      let j := v % (i + 1)
      (listSwap st.1 i j, s1))
    (arr, s)

/-- generate_random_house_allocation from src/generators.c (lines 48-79):
guard on num_agents, reseed (discarding the prior generator state), then
one shuffled copy of the house list 0..n-1 per agent, threading the
state through the agents in ascending order. -/
def generateRandomHouseAllocation (numAgents : Nat) (seed : Nat) (oldState : Nat) :
    Option ProblemInstance :=
  if numAgents = 0 ∨ MAX_AGENTS < numAgents then none
  else
    let s0 := rngSeed seed oldState
    let build := (List.range numAgents).foldl
      (fun (st : List Agent × Nat) i =>
        let base := (List.range numAgents).map (fun j => (j : Int))
        let (prefs, s1) := shuffleArray base numAgents st.2
        (st.1 ++ [{ id := (i : Int), preferences := prefs }], s1))
      ([], s0)
    some { agents := build.1, numAgents := numAgents,
           model := MatchingModel.houseAllocation,
           modelData := { numMenOrHouses := numAgents, numWomen := 0 } }

/-- generate_random_marriage from src/generators.c (lines 82-129): men
first (preference lists over the women ids num_men..n-1), then women
(lists over the men ids 0..num_men-1), threading the reseeded state. -/
def generateRandomMarriage (numMen numWomen : Nat) (seed : Nat) (oldState : Nat) :
    Option ProblemInstance :=
  if numMen = 0 ∨ numWomen = 0 ∨ MAX_AGENTS < numMen + numWomen then none
  else
    let s0 := rngSeed seed oldState
    let men := (List.range numMen).foldl
      (fun (st : List Agent × Nat) i =>
        let base := (List.range numWomen).map (fun j => ((numMen + j : Nat) : Int))
        let (prefs, s1) := shuffleArray base numWomen st.2
        (st.1 ++ [{ id := (i : Int), preferences := prefs }], s1))
      ([], s0)
    let women := (List.range numWomen).foldl
      (fun (st : List Agent × Nat) i =>
        let base := (List.range numMen).map (fun j => (j : Int))
        let (prefs, s1) := shuffleArray base numMen st.2
        (st.1 ++ [{ id := ((numMen + i : Nat) : Int), preferences := prefs }], s1))
      (men.1, men.2)
    some { agents := women.1, numAgents := numMen + numWomen,
           model := MatchingModel.marriage,
           modelData := { numMenOrHouses := numMen, numWomen := numWomen } }

/-- generate_random_roommates from src/generators.c (lines 132-167): per
agent, the ascending list of all other agents, shuffled. -/
def generateRandomRoommates (numAgents : Nat) (seed : Nat) (oldState : Nat) :
    Option ProblemInstance :=
  if numAgents = 0 ∨ MAX_AGENTS < numAgents then none
  else
    let s0 := rngSeed seed oldState
    let build := (List.range numAgents).foldl
      (fun (st : List Agent × Nat) i =>
        let base := ((List.range numAgents).filter (fun j => j ≠ i)).map (fun j => (j : Int))
        let (prefs, s1) := shuffleArray base (numAgents - 1) st.2
        (st.1 ++ [{ id := (i : Int), preferences := prefs }], s1))
      ([], s0)
    some { agents := build.1, numAgents := numAgents,
           model := MatchingModel.roommates,
           modelData := { numMenOrHouses := 0, numWomen := 0 } }

/-
Characterisation of the subset search of src/verification.c: the search
reports a blocking coalition exactly when at least k agents individually
pass the improvement scan.
-/

lemma getD_eq_getElem (l : List Nat) (i : Nat) (d : Nat) (h : i < l.length) :
    l.getD i d = l[i] := by
  simp [List.getD_eq_getElem?_getD, List.getElem?_eq_getElem h]

lemma le_countP_range_iff (k : Nat) (f : Nat → Bool) :
    k ≤ (List.range k).countP f ↔ ∀ i, i < k → f i = true := by
  constructor
  · intro h i hi
    have h1 : (List.range k).countP f = (List.range k).length :=
      le_antisymm (List.countP_le_length f) (by simpa using h)
    exact List.countP_eq_length.mp h1 i (List.mem_range.mpr hi)
  · intro h
    have h1 : (List.range k).countP f = (List.range k).length :=
      List.countP_eq_length.mpr (fun a ha => h a (List.mem_range.mp ha))
    simp [h1]

lemma canFormAux_zero (m : Matching) (inst : ProblemInstance) (k : Nat)
    (coalition : List Nat) (s : Nat) :
    canFormAux m inst k 0 coalition s = canFormBase m inst k coalition := rfl

lemma canFormAux_succ (m : Matching) (inst : ProblemInstance) (k : Nat)
    (f : Nat) (coalition : List Nat) (s : Nat) :
    canFormAux m inst k (f + 1) coalition s =
      (canFormBase m inst k coalition
        || (if s ∈ coalition then false
            else canFormAux m inst k f (coalition ++ [s]) (s + 1))
        || canFormAux m inst k f coalition (s + 1)) := rfl

lemma canFormBase_true_iff (m : Matching) (inst : ProblemInstance) (k : Nat)
    (coalition : List Nat) (hk : 1 ≤ k) :
    canFormBase m inst k coalition = true ↔
      k ≤ coalition.length ∧
        ∀ i, i < k → hasIndividualImprovement m inst (coalition.getD i 0) = true := by
  unfold canFormBase
  by_cases hlen : k ≤ coalition.length
  · rw [if_pos hlen]
    have hne : ¬ (coalition.isEmpty = true) := by
      cases coalition with
      | nil => simp at hlen; omega
      | cons a l => simp
    rw [if_neg hne]
    simp only [isValidAlternativeMatching, decide_eq_true_eq]
    rw [le_countP_range_iff]
    exact ⟨fun h => ⟨hlen, h⟩, fun h => h.2⟩
  · rw [if_neg hlen]
    simp only [Bool.false_eq_true, false_iff, not_and]
    intro h
    exact absurd h hlen

lemma canFormBase_sound (m : Matching) (inst : ProblemInstance) (k : Nat)
    (coalition : List Nat) (hk : 1 ≤ k) (hnd : coalition.Nodup)
    (hbound : ∀ x ∈ coalition, x < inst.numAgents)
    (h : canFormBase m inst k coalition = true) :
    k ≤ countIndividuallyImprovable m inst := by
  obtain ⟨hlen, hall⟩ := (canFormBase_true_iff m inst k coalition hk).mp h
  have hmem : ∀ i, i < k → coalition.getD i 0 ∈ coalition := by
    intro i hi
    have hilen : i < coalition.length := lt_of_lt_of_le hi hlen
    rw [getD_eq_getElem coalition i 0 hilen]
    exact List.getElem_mem hilen
  have hnodL : ((List.range k).map (fun i => coalition.getD i 0)).Nodup := by
    refine List.Nodup.map_on ?_ (List.nodup_range k)
    intro i hi j hj hij
    have hi2 : i < coalition.length := lt_of_lt_of_le (List.mem_range.mp hi) hlen
    have hj2 : j < coalition.length := lt_of_lt_of_le (List.mem_range.mp hj) hlen
    rw [getD_eq_getElem coalition i 0 hi2, getD_eq_getElem coalition j 0 hj2] at hij
    exact (List.Nodup.getElem_inj_iff hnd).mp hij
  have hsub : ((List.range k).map (fun i => coalition.getD i 0)) ⊆
      (List.range inst.numAgents).filter (fun i => hasIndividualImprovement m inst i) := by
    intro x hx
    simp only [List.mem_map, List.mem_range] at hx
    obtain ⟨i, hi, rfl⟩ := hx
    refine List.mem_filter.mpr ⟨List.mem_range.mpr (hbound _ (hmem i hi)), hall i hi⟩
  have hle := List.Subperm.length_le (List.subperm_of_subset hnodL hsub)
  simp only [List.length_map, List.length_range] at hle
  calc k ≤ ((List.range inst.numAgents).filter
        (fun i => hasIndividualImprovement m inst i)).length := hle
    _ = countIndividuallyImprovable m inst := by
        rw [countIndividuallyImprovable, List.countP_eq_length_filter]

lemma canFormAux_sound (m : Matching) (inst : ProblemInstance) (k : Nat) (hk : 1 ≤ k) :
    ∀ fuel s coalition, s + fuel ≤ inst.numAgents →
      coalition.Nodup → (∀ x ∈ coalition, x < inst.numAgents) →
      canFormAux m inst k fuel coalition s = true →
      k ≤ countIndividuallyImprovable m inst := by
  intro fuel
  induction fuel with
  | zero =>
    intro s coalition _ hnd hb h
    rw [canFormAux_zero] at h
    exact canFormBase_sound m inst k coalition hk hnd hb h
  | succ f ih =>
    intro s coalition hle hnd hb h
    rw [canFormAux_succ] at h
    simp only [Bool.or_eq_true] at h
    rcases h with (h | h) | h
    · exact canFormBase_sound m inst k coalition hk hnd hb h
    · by_cases hmem : s ∈ coalition
      · simp [hmem] at h
      · simp only [hmem, if_false, Bool.false_eq_true] at h
        refine ih (s + 1) (coalition ++ [s]) (by omega) ?_ ?_ h
        · simp [List.nodup_append, hnd, hmem]
        · intro x hx
          rcases List.mem_append.mp hx with hx | hx
          · exact hb x hx
          · simp only [List.mem_singleton] at hx
            subst hx
            omega
    · exact ih (s + 1) coalition (by omega) hnd hb h

lemma canFormBase_fire (m : Matching) (inst : ProblemInstance) (k : Nat)
    (coalition : List Nat) (hk : 1 ≤ k) (hlen : coalition.length = k)
    (hall : ∀ x ∈ coalition, hasIndividualImprovement m inst x = true) :
    canFormBase m inst k coalition = true := by
  rw [canFormBase_true_iff m inst k coalition hk]
  refine ⟨le_of_eq hlen.symm, fun i hi => ?_⟩
  have hilen : i < coalition.length := by omega
  rw [getD_eq_getElem coalition i 0 hilen]
  exact hall _ (List.getElem_mem hilen)

lemma canFormAux_complete (m : Matching) (inst : ProblemInstance) (k : Nat) (hk : 1 ≤ k) :
    ∀ fuel s coalition,
      coalition.length ≤ k →
      (∀ x ∈ coalition, hasIndividualImprovement m inst x = true) →
      (∀ x ∈ coalition, x < s) →
      k ≤ coalition.length +
        (List.range' s fuel).countP (fun i => hasIndividualImprovement m inst i) →
      canFormAux m inst k fuel coalition s = true := by
  intro fuel
  induction fuel with
  | zero =>
    intro s coalition hlen hall _ hcount
    rw [canFormAux_zero]
    have hlenk : coalition.length = k := by
      simp only [List.range', List.countP_nil] at hcount
      omega
    exact canFormBase_fire m inst k coalition hk hlenk hall
  | succ f ih =>
    intro s coalition hlen hall hlt hcount
    rw [canFormAux_succ]
    by_cases hlenk : coalition.length = k
    · rw [canFormBase_fire m inst k coalition hk hlenk hall]
      simp
    · have hlt2 : coalition.length < k := lt_of_le_of_ne hlen hlenk
      rw [List.range'_succ s f 1, List.countP_cons] at hcount
      by_cases hBs : hasIndividualImprovement m inst s = true
      · have hmem : s ∉ coalition := fun hc => lt_irrefl s (hlt s hc)
        have h1 : canFormAux m inst k f (coalition ++ [s]) (s + 1) = true := by
          apply ih (s + 1) (coalition ++ [s])
          · simp only [List.length_append, List.length_singleton]
            omega
          · intro x hx
            rcases List.mem_append.mp hx with hx | hx
            · exact hall x hx
            · simp only [List.mem_singleton] at hx
              subst hx
              exact hBs
          · intro x hx
            rcases List.mem_append.mp hx with hx | hx
            · exact Nat.lt_succ_of_lt (hlt x hx)
            · simp only [List.mem_singleton] at hx
              omega
          · simp only [hBs, if_true, List.length_append, List.length_singleton] at hcount ⊢
            omega
        simp [hmem, h1]
      · have h2 : canFormAux m inst k f coalition (s + 1) = true := by
          apply ih (s + 1) coalition hlen hall (fun x hx => Nat.lt_succ_of_lt (hlt x hx))
          simp only [hBs] at hcount
          simp only [Bool.false_eq_true, if_false] at hcount
          omega
        simp [h2]

lemma hasBlockingCoalition_true_iff (m : Matching) (inst : ProblemInstance) (k : Nat)
    (hk : 1 ≤ k) :
    hasBlockingCoalition m inst k = true ↔ k ≤ countIndividuallyImprovable m inst := by
  unfold hasBlockingCoalition canFormBlockingCoalition
  rw [Nat.sub_zero]
  constructor
  · exact fun h =>
      canFormAux_sound m inst k hk inst.numAgents 0 [] (by omega) List.nodup_nil
        (by simp) h
  · intro h
    apply canFormAux_complete m inst k hk inst.numAgents 0 [] (by simp [hk])
      (by simp) (by simp)
    simpa [countIndividuallyImprovable, List.range_eq_range'] using h

lemma isKStable_true_iff (m : Matching) (inst : ProblemInstance) (k : Nat) :
    isKStable m inst k = true ↔
      1 ≤ k ∧ k ≤ inst.numAgents ∧ countIndividuallyImprovable m inst < k := by
  unfold isKStable
  by_cases hg : k = 0 ∨ inst.numAgents < k
  · simp only [hg, if_true, Bool.false_eq_true, false_iff, not_and]
    intro h1 h2
    omega
  · have hk : 1 ≤ k := by omega
    have hkn : k ≤ inst.numAgents := by omega
    simp only [hg, if_false, Bool.not_eq_true']
    rw [← Bool.not_eq_true (hasBlockingCoalition m inst k)]
    rw [hasBlockingCoalition_true_iff m inst k hk]
    omega

/-
Concrete instances and matchings used by the counterexamples and
witnesses below.
-/

/-- Single-agent house-allocation instance whose agent finds no house
acceptable (an empty acceptance list is a legal instance per the data
model: non-listed partners are merely unacceptable). -/
def exInstSolo : ProblemInstance :=
  { agents := [{ id := 0, preferences := [] }],
    numAgents := 1,
    model := MatchingModel.houseAllocation,
    modelData := { numMenOrHouses := 1, numWomen := 0 } }

/-- Matching of exInstSolo leaving the agent unmatched. -/
def exMuSoloUnmatched : Matching :=
  { pairs := [-1], numAgents := 1, model := MatchingModel.houseAllocation }

/-- Matching of exInstSolo assigning house 0 to the agent. -/
def exMuSoloHoused : Matching :=
  { pairs := [0], numAgents := 1, model := MatchingModel.houseAllocation }

/-- Identity assignment on three agents (agent i gets house i). -/
def exMuIdentity3 : Matching :=
  { pairs := [0, 1, 2], numAgents := 3, model := MatchingModel.houseAllocation }

/-- Cyclic assignment on three agents (agent 0 gets house 1, agent 1 gets
house 2, agent 2 gets house 0). -/
def exMuCycle3 : Matching :=
  { pairs := [1, 2, 0], numAgents := 3, model := MatchingModel.houseAllocation }

/-- Two-agent house-allocation instance, both agents ranking house 0
above house 1. -/
def exInstPair : ProblemInstance :=
  { agents := [{ id := 0, preferences := [0, 1] }, { id := 1, preferences := [0, 1] }],
    numAgents := 2,
    model := MatchingModel.houseAllocation,
    modelData := { numMenOrHouses := 2, numWomen := 0 } }

/-- Ill-formed matching on exInstPair: both agents are assigned house 0. -/
def exMuSharedHouse : Matching :=
  { pairs := [0, 0], numAgents := 2, model := MatchingModel.houseAllocation }

/-- Agent with the single acceptable partner 1 (partner 0 is unlisted). -/
def exAgentOneListed : Agent := { id := 0, preferences := [1] }

/-
Root-pruning analysis of the medium-regime search of src/existence.c: on
the initial all-unmatched matching the estimated blocking potential is
the full agent count, so the promising check fails whenever k is at most
the number of agents, and the search answers negatively at once.
-/

lemma getD_replicate_neg (n i : Nat) : (List.replicate n (-1 : Int)).getD i (-1) = -1 := by
  induction n generalizing i with
  | zero => simp [List.replicate]
  | succ n ih =>
    cases i with
    | zero => simp [List.replicate]
    | succ j => simpa [List.replicate] using ih j

lemma estimate_all_unmatched (inst : ProblemInstance) (k : Nat) (m : Matching)
    (hpairs : ∀ i, m.pairs.getD i (-1) = -1) :
    estimateBlockingPotential m inst k = inst.numAgents := by
  unfold estimateBlockingPotential
  have hall : ∀ a ∈ List.range inst.numAgents,
      (fun i =>
        let currentPartner := m.pairs.getD i (-1)
        if currentPartner = -1 then true
        else decide (2 < getAgentRank (inst.agents.getD i defaultAgent) currentPartner)) a
        = true := by
    intro a _
    show (if m.pairs.getD a (-1) = -1 then true
      else decide (2 < getAgentRank (inst.agents.getD a defaultAgent)
        (m.pairs.getD a (-1)))) = true
    rw [hpairs a]
    simp
  exact (List.countP_eq_length.mpr hall).trans (List.length_range _)

lemma all_unmatched_not_promising (inst : ProblemInstance) (k : Nat) (m : Matching)
    (hkn : k ≤ inst.numAgents) (hpairs : ∀ i, m.pairs.getD i (-1) = -1) :
    isPromisingMatching m inst k 0 = false := by
  unfold isPromisingMatching
  rw [estimate_all_unmatched inst k m hpairs, if_pos hkn]

lemma findKStableRecAux_succ (inst : ProblemInstance) (k fuel : Nat) (m : Matching)
    (agentIndex : Nat) :
    findKStableRecAux inst k (fuel + 1) m agentIndex =
      (if inst.numAgents ≤ agentIndex then
        if isKStableDirect m inst k then some m else none
      else if ¬ isPromisingMatching m inst k agentIndex then none
      else if m.pairs.getD agentIndex (-1) ≠ -1 then
        findKStableRecAux inst k fuel m (agentIndex + 1)
      else
        let partners := potentialPartners inst m agentIndex
        let viaPartner := partners.findSome? fun partner =>
          let tentative := matchPair m agentIndex partner
          if isMatchingValidUpTo tentative inst agentIndex then
            findKStableRecAux inst k fuel tentative (agentIndex + 1)
          else none
        match viaPartner with
        | some result => some result
        | none =>
          if inst.model = MatchingModel.houseAllocation ∨
              inst.model = MatchingModel.roommates then
            findKStableRecAux inst k fuel m (agentIndex + 1)
          else none) := rfl

lemma rootSearch_none (inst : ProblemInstance) (k : Nat) (hk : 1 ≤ k)
    (hkn : k ≤ inst.numAgents) (m : Matching) (hpairs : ∀ i, m.pairs.getD i (-1) = -1) :
    findKStableMatchingRecursive inst k m 0 = none := by
  unfold findKStableMatchingRecursive
  rw [Nat.sub_zero, findKStableRecAux_succ]
  rw [if_neg (by omega : ¬ inst.numAgents ≤ 0)]
  rw [if_pos]
  rw [all_unmatched_not_promising inst k m hkn hpairs]
  simp

lemma findKStableWithPruning_false (inst : ProblemInstance) (k : Nat) (hk : 1 ≤ k)
    (hkn : k ≤ inst.numAgents) : findKStableWithPruning inst k = false := by
  unfold findKStableWithPruning createMatching
  by_cases hbig : MAX_AGENTS < inst.numAgents
  · rw [if_pos (Or.inr hbig)]
  · rw [if_neg (by omega : ¬ (inst.numAgents = 0 ∨ MAX_AGENTS < inst.numAgents))]
    show (findKStableMatchingRecursive inst k
      { pairs := List.replicate inst.numAgents (-1), numAgents := inst.numAgents,
        model := inst.model } 0).isSome = false
    rw [rootSearch_none inst k hk hkn
      { pairs := List.replicate inst.numAgents (-1), numAgents := inst.numAgents,
        model := inst.model } (fun i => getD_replicate_neg inst.numAgents i)]
    rfl

lemma findKStableMatching_none (inst : ProblemInstance) (k : Nat) (hk : 1 ≤ k)
    (hkn : k ≤ inst.numAgents) : findKStableMatching inst k = none := by
  unfold findKStableMatching createMatching
  rw [if_neg (by omega : ¬ (k = 0 ∨ inst.numAgents < k))]
  by_cases hbig : MAX_AGENTS < inst.numAgents
  · rw [if_pos (Or.inr hbig)]
  · rw [if_neg (by omega : ¬ (inst.numAgents = 0 ∨ MAX_AGENTS < inst.numAgents))]
    show findKStableMatchingRecursive inst k
      { pairs := List.replicate inst.numAgents (-1), numAgents := inst.numAgents,
        model := inst.model } 0 = none
    exact rootSearch_none inst k hk hkn
      { pairs := List.replicate inst.numAgents (-1), numAgents := inst.numAgents,
        model := inst.model } (fun i => getD_replicate_neg inst.numAgents i)

/-
Per-agent characterisation of count_improved_agents, and the definitions
written from the words of the spec used to compare code and spec where
they disagree.
-/

/-- Per-agent improvement test performed by count_improved_agents:
unmatched before and matched after (with no acceptability requirement),
or matched under both with the new partner preferred by agent_prefers. -/
def improvedUnderCode (current alternative : Matching) (inst : ProblemInstance) (i : Nat) :
    Bool :=
  let cp := current.pairs.getD i (-1)
  let ap := alternative.pairs.getD i (-1)
  (decide (cp = -1) && decide (ap ≠ -1))
    || (decide (cp ≠ -1) && decide (ap ≠ -1)
        && agentPrefers (inst.agents.getD i defaultAgent) ap cp)

lemma improvedStep (ag : Agent) (cp ap : Int) (count : Nat) :
    (if cp = -1 ∧ ap = -1 then count
     else
       let isBetter :=
         if cp = -1 ∧ ap ≠ -1 then true
         else if cp ≠ -1 ∧ ap ≠ -1 then agentPrefers ag ap cp
         else false
       if isBetter then count + 1 else count)
    = if (decide (cp = -1) && decide (ap ≠ -1))
          || (decide (cp ≠ -1) && decide (ap ≠ -1) && agentPrefers ag ap cp) then
        count + 1
      else count := by
  by_cases hc : cp = -1 <;> by_cases ha : ap = -1 <;> simp [hc, ha]

lemma countImproved_step (current alternative : Matching) (inst : ProblemInstance)
    (count i : Nat) :
    (let currentPartner := current.pairs.getD i (-1)
     let alternativePartner := alternative.pairs.getD i (-1)
     if currentPartner = -1 ∧ alternativePartner = -1 then count
     else
       let isBetter :=
         if currentPartner = -1 ∧ alternativePartner ≠ -1 then true
         else if currentPartner ≠ -1 ∧ alternativePartner ≠ -1 then
           agentPrefers (inst.agents.getD i defaultAgent) alternativePartner currentPartner
         else false
       if isBetter then count + 1 else count)
    = if improvedUnderCode current alternative inst i then count + 1 else count := by
  unfold improvedUnderCode
  exact improvedStep (inst.agents.getD i defaultAgent) (current.pairs.getD i (-1))
    (alternative.pairs.getD i (-1)) count

lemma foldl_count_eq (p : Nat → Bool) :
    ∀ (l : List Nat) (acc : Nat),
      l.foldl (fun c i => if p i then c + 1 else c) acc = acc + l.countP p := by
  intro l
  induction l with
  | nil => intro acc; simp
  | cons a t ih =>
    intro acc
    rw [List.foldl_cons, List.countP_cons]
    by_cases hp : p a = true
    · rw [if_pos hp, ih (acc + 1), if_pos hp]
      omega
    · rw [if_neg hp, ih acc, if_neg hp]
      omega

/-- Modelled from the spec: the rank convention of §4.1, under which the
unmatched sentinel ranks at the length of the acceptance list and an
unacceptable partner ranks below being unmatched. -/
def specRankValue (agent : Agent) (x : Int) : Nat :=
  if x = -1 then agent.preferences.length
  else if getAgentRank agent x = -1 then agent.preferences.length + 1
  else (getAgentRank agent x).toNat

/-- Modelled from the spec: count_improved per §4.1 — the number of agents
whose partner under the alternative matching is strictly preferred to
their partner under the current one, with strict preference read through
specRankValue, so an agent unmatched before counts as improved only when
the new partner is acceptable. -/
def specCountImprovedAgents (current alternative : Matching) (inst : ProblemInstance) : Nat :=
  (List.range inst.numAgents).countP fun i =>
    let agent := inst.agents.getD i defaultAgent
    decide (specRankValue agent (alternative.pairs.getD i (-1)) <
      specRankValue agent (current.pairs.getD i (-1)))

/-- Modelled from the spec: §3 matching well-formedness for the
house-allocation model, in which the symmetry invariant is restricted to
marriage and roommates — only shape agreement, bounds (every non-sentinel
value a valid object id) and uniqueness (no object assigned twice) are
required. -/
def specValidHouseAllocation (m : Matching) (inst : ProblemInstance) : Bool :=
  decide (m.numAgents = inst.numAgents)
    && ((List.range m.numAgents).all fun i =>
        let h := m.pairs.getD i (-1)
        if h = -1 then true
        else decide (0 ≤ h) && decide (h < (inst.numAgents : Int)))
    && ((List.range m.numAgents).all fun i =>
        (List.range m.numAgents).all fun j =>
          if i = j then true
          else
            decide (m.pairs.getD i (-1) = -1)
              || decide (m.pairs.getD i (-1) ≠ m.pairs.getD j (-1)))

/-
The ten claims.
-/

/-- C1 counterexample: the claimed equivalence between is_k_stable and
the nonexistence of a well-formed alternative improving at least k agents
fails on the code.  On a one-agent house allocation whose agent lists no
acceptable house, the unmatched matching is well formed and the verifier
reports 1-stability, yet the well-formed alternative that houses the
agent improves one agent (count_improved_agents counts the unmatched to
matched transition without any acceptability requirement). -/
theorem C1_counterexample :
    isKStable exMuSoloUnmatched exInstSolo 1 = true ∧
    isValidMatching exMuSoloUnmatched exInstSolo = true ∧
    isValidMatching exMuSoloHoused exInstSolo = true ∧
    1 ≤ countImprovedAgents exMuSoloUnmatched exMuSoloHoused exInstSolo := by
  decide

/-- C1 amended: for 1 ≤ k ≤ n, is_k_stable(μ, instance, k) returns true
iff fewer than k agents individually pass the improvement scan of the
verifier (an agent matched to a partner with some strictly preferred
acceptable alternative, or unmatched with a nonempty acceptance list);
the coalition search never constructs an alternative matching, so the
verdict coincides with this individual count rather than with the
existence of a well-formed blocking alternative. -/
theorem C1_verifier_counts_individual_improvements
    (m : Matching) (inst : ProblemInstance) (k : Nat) (hk : 1 ≤ k)
    (hkn : k ≤ inst.numAgents) :
    isKStable m inst k = true ↔ countIndividuallyImprovable m inst < k := by
  rw [isKStable_true_iff]
  exact ⟨fun h => h.2.2, fun h => ⟨hk, hkn, h⟩⟩

/-- C1 witness: the amended characterisation instantiated on the 3-cycle
test instance with the identity assignment and k = 1. -/
theorem C1_verifier_counts_individual_improvements_witness :
    (1 ≤ 1 ∧ 1 ≤ generateTestCase1.numAgents) ∧
      (isKStable exMuIdentity3 generateTestCase1 1 = true ↔
        countIndividuallyImprovable exMuIdentity3 generateTestCase1 < 1) :=
  ⟨⟨by decide, by decide⟩,
    C1_verifier_counts_individual_improvements exMuIdentity3 generateTestCase1 1
      (by decide) (by decide)⟩

/-- C2: for every instance and every k with 1 ≤ k ≤ n, find_k_stable_matching
returns the absent value and find_k_stable_with_pruning returns false,
because the initial all-unmatched matching has estimated blocking
potential n ≥ k and is_promising_partial_matching therefore prunes the
search at the root. -/
theorem C2_pruning_search_always_fails (inst : ProblemInstance) (k : Nat)
    (hk : 1 ≤ k) (hkn : k ≤ inst.numAgents) :
    findKStableMatching inst k = none ∧
    findKStableWithPruning inst k = false ∧
    estimateBlockingPotential
      { pairs := List.replicate inst.numAgents (-1), numAgents := inst.numAgents,
        model := inst.model } inst k = inst.numAgents ∧
    isPromisingMatching
      { pairs := List.replicate inst.numAgents (-1), numAgents := inst.numAgents,
        model := inst.model } inst k 0 = false :=
  ⟨findKStableMatching_none inst k hk hkn,
    findKStableWithPruning_false inst k hk hkn,
    estimate_all_unmatched inst k _ (fun i => getD_replicate_neg inst.numAgents i),
    all_unmatched_not_promising inst k _ hkn (fun i => getD_replicate_neg inst.numAgents i)⟩

/-- C2 witness: the root pruning instantiated on the 3-cycle test
instance with k = 2. -/
theorem C2_pruning_search_always_fails_witness :
    (1 ≤ 2 ∧ 2 ≤ generateTestCase1.numAgents) ∧
      (findKStableMatching generateTestCase1 2 = none ∧
        findKStableWithPruning generateTestCase1 2 = false ∧
        estimateBlockingPotential
          { pairs := List.replicate generateTestCase1.numAgents (-1),
            numAgents := generateTestCase1.numAgents,
            model := generateTestCase1.model } generateTestCase1 2 =
          generateTestCase1.numAgents ∧
        isPromisingMatching
          { pairs := List.replicate generateTestCase1.numAgents (-1),
            numAgents := generateTestCase1.numAgents,
            model := generateTestCase1.model } generateTestCase1 2 0 = false) :=
  ⟨⟨by decide, by decide⟩,
    C2_pruning_search_always_fails generateTestCase1 2 (by decide) (by decide)⟩

/-- C3 counterexample: k_stable_matching_exists(instance, 1) is not true
for every valid instance — on the 3-agent test instance the ratio 1/3
routes the query to the medium regime, whose pruning search fails at the
root, so the call answers false. -/
theorem C3_counterexample : kStableMatchingExists generateTestCase1 1 = false := by
  decide

/-- C3 amended: for instances with at least two agents,
k_stable_matching_exists(instance, 1) answers true exactly when n ≥ 10:
only then does the ratio test k/n ≤ 0.1 dispatch to the small-k routine
whose k = 1 branch returns true unconditionally; for 2 ≤ n ≤ 9 the query
falls to the medium-regime pruning search, which always fails (a
one-agent instance goes to the large-k routine and its answer depends on
the instance). -/
theorem C3_existence_k1_depends_on_regime (inst : ProblemInstance)
    (h2 : 2 ≤ inst.numAgents) :
    kStableMatchingExists inst 1 = decide (10 ≤ inst.numAgents) := by
  unfold kStableMatchingExists
  rw [if_neg (by omega : ¬ ((1 : Nat) = 0 ∨ inst.numAgents < 1))]
  by_cases h10 : 10 * 1 ≤ inst.numAgents
  · rw [if_pos h10]
    unfold kStableMatchingExistsSmallK
    rw [if_pos rfl, decide_eq_true (by omega : 10 ≤ inst.numAgents)]
  · rw [if_neg h10, if_neg (by omega : ¬ (4 * inst.numAgents ≤ 5 * 1)),
      decide_eq_false (by omega : ¬ 10 ≤ inst.numAgents)]
    exact findKStableWithPruning_false inst 1 (by omega) (by omega)

/-- C3 witness: the amended statement instantiated on the 3-agent test
instance (regime 2 ≤ n ≤ 9, answer false). -/
theorem C3_existence_k1_depends_on_regime_witness :
    2 ≤ generateTestCase1.numAgents ∧
      kStableMatchingExists generateTestCase1 1 =
        decide (10 ≤ generateTestCase1.numAgents) :=
  ⟨by decide, C3_existence_k1_depends_on_regime generateTestCase1 (by decide)⟩

/-- C4 counterexample: is_k_stable(μ, instance, 1) is not true for every
well-formed matching — on the 3-cycle test instance the identity
assignment is well formed, yet the verifier reports it not 1-stable
(every agent has a strictly better acceptable house). -/
theorem C4_counterexample :
    isValidMatching exMuIdentity3 generateTestCase1 = true ∧
    isKStable exMuIdentity3 generateTestCase1 1 = false := by
  decide

/-- C4 amended: for a nonempty instance, is_k_stable(μ, instance, 1)
returns true iff no agent individually passes the improvement scan of the
verifier. -/
theorem C4_one_stability_iff_no_individual_improvement
    (m : Matching) (inst : ProblemInstance) (hn : 1 ≤ inst.numAgents) :
    isKStable m inst 1 = true ↔ countIndividuallyImprovable m inst = 0 := by
  rw [isKStable_true_iff]
  omega

/-- C4 witness: the amended statement instantiated on the 3-cycle test
instance with the cyclic top assignment. -/
theorem C4_one_stability_iff_no_individual_improvement_witness :
    1 ≤ generateTestCase1.numAgents ∧
      (isKStable exMuCycle3 generateTestCase1 1 = true ↔
        countIndividuallyImprovable exMuCycle3 generateTestCase1 = 0) :=
  ⟨by decide,
    C4_one_stability_iff_no_individual_improvement exMuCycle3 generateTestCase1 (by decide)⟩

/-- C5 counterexample: count_improved_agents counts an agent that moves
from unmatched to matched even when the new partner is unacceptable
(absent from the preference list), where the claim requires such an agent
to count only for an acceptable new partner: on the one-agent instance
with an empty acceptance list the code counts 1, the spec count is 0. -/
theorem C5_counterexample :
    countImprovedAgents exMuSoloUnmatched exMuSoloHoused exInstSolo = 1 ∧
    specCountImprovedAgents exMuSoloUnmatched exMuSoloHoused exInstSolo = 0 ∧
    getAgentRank (exInstSolo.agents.getD 0 defaultAgent) 0 = -1 := by
  decide

/-- C5 amended: count_improved_agents equals the number of agents i < n
for which either the agent is unmatched under μ and matched under μ′
(with no acceptability requirement on the new partner), or the agent is
matched under both and agent_prefers accepts the new partner over the old
one (in particular an agent matched under μ and unmatched under μ′ never
counts). -/
theorem C5_count_improved_agents_eq_countP
    (current alternative : Matching) (inst : ProblemInstance) :
    countImprovedAgents current alternative inst =
      (List.range inst.numAgents).countP (improvedUnderCode current alternative inst) := by
  unfold countImprovedAgents
  have hbody :
      (fun (count i : Nat) =>
        let currentPartner := current.pairs.getD i (-1)
        let alternativePartner := alternative.pairs.getD i (-1)
        if currentPartner = -1 ∧ alternativePartner = -1 then count
        else
          let isBetter :=
            if currentPartner = -1 ∧ alternativePartner ≠ -1 then true
            else if currentPartner ≠ -1 ∧ alternativePartner ≠ -1 then
              agentPrefers (inst.agents.getD i defaultAgent) alternativePartner currentPartner
            else false
          if isBetter then count + 1 else count)
      = fun (count i : Nat) =>
          if improvedUnderCode current alternative inst i then count + 1 else count :=
    funext fun count => funext fun i => countImproved_step current alternative inst count i
  rw [hbody, foldl_count_eq, Nat.zero_add]

/-- C6 counterexample: agent_prefers does not implement the claimed rank
convention — for an agent listing only partner 1, being unmatched is not
reported preferred to the unlisted partner 0 (the a = -1 special case
returns false), and the listed partner 1 is not reported preferred to the
unlisted partner 0 (an unlisted rank forces false). -/
theorem C6_counterexample :
    agentPrefers exAgentOneListed (-1) 0 = false ∧
    agentPrefers exAgentOneListed 1 0 = false ∧
    getAgentRank exAgentOneListed 0 = -1 ∧
    getAgentRank exAgentOneListed 1 = 0 := by
  decide

/-- C6 amended: agent_prefers(agent, a, b) is true iff b is the unmatched
sentinel and a is listed, or neither argument is the sentinel, both are
listed, and a ranks strictly before b; in particular the sentinel as
first argument is never preferred, and a listed partner is not preferred
to an unlisted non-sentinel partner. -/
theorem C6_agent_prefers_characterisation (agent : Agent) (a b : Int) :
    agentPrefers agent a b = true ↔
      ((b = -1 ∧ getAgentRank agent a ≠ -1) ∨
        (b ≠ -1 ∧ a ≠ -1 ∧ getAgentRank agent a ≠ -1 ∧ getAgentRank agent b ≠ -1 ∧
          getAgentRank agent a < getAgentRank agent b)) := by
  unfold agentPrefers
  by_cases hb : b = -1
  · simp [hb]
  · rw [if_neg hb]
    by_cases ha : a = -1
    · simp [ha, hb]
    · rw [if_neg ha]
      by_cases hr : getAgentRank agent a = -1 ∨ getAgentRank agent b = -1
      · rw [if_pos hr]
        simp only [Bool.false_eq_true, false_iff]
        intro h
        rcases h with ⟨hb2, _⟩ | ⟨_, _, hra, hrb, _⟩
        · exact hb hb2
        · rcases hr with hr | hr
          · exact hra hr
          · exact hrb hr
      · rw [if_neg hr]
        push_neg at hr
        simp [ha, hb, hr.1, hr.2]

/-- C7: the spec restricts the symmetry invariant to the marriage and
roommates models, and the claim says the cyclic house assignment
agent 0 to house 1, agent 1 to house 2, agent 2 to house 0 is valid; the
code applies the symmetry check to every model, conflating house ids with
agent ids against its own comment that pairs[i] is the house of agent i,
and rejects that assignment although it satisfies the §3 bounds and
uniqueness invariants. -/
theorem C7_house_cycle_rejected_by_validity :
    specValidHouseAllocation exMuCycle3 generateTestCase1 = true ∧
    isValidMatching exMuCycle3 generateTestCase1 = false := by
  decide

/-- C8 counterexample: is_k_stable does not reject an ill-formed matching
— with both agents of a two-agent house allocation assigned house 0 the
matching fails is_valid_matching, yet is_k_stable(μ, instance, 2) runs
the coalition search and reports stability (true, not the failure
sentinel false). -/
theorem C8_counterexample :
    isValidMatching exMuSharedHouse exInstPair = false ∧
    isKStable exMuSharedHouse exInstPair 2 = true := by
  decide

/-- C8 amended: is_k_stable fails with the sentinel only for k out of
range (and NULL inputs); it performs no well-formedness or shape check on
the matching, so even for an invalid matching the verdict is the
individual-improvement count comparison. -/
theorem C8_invalid_matching_not_rejected
    (m : Matching) (inst : ProblemInstance) (k : Nat) (hk : 1 ≤ k)
    (hkn : k ≤ inst.numAgents) (hinvalid : isValidMatching m inst = false) :
    isKStable m inst k = decide (countIndividuallyImprovable m inst < k) := by
  by_cases hc : countIndividuallyImprovable m inst < k
  · rw [decide_eq_true hc]
    exact (isKStable_true_iff m inst k).mpr ⟨hk, hkn, hc⟩
  · rw [decide_eq_false hc]
    cases hb : isKStable m inst k
    · rfl
    · exact absurd ((isKStable_true_iff m inst k).mp hb).2.2 hc

/-- C8 witness: the amended statement instantiated on the shared-house
matching of the two-agent instance with k = 2. -/
theorem C8_invalid_matching_not_rejected_witness :
    (1 ≤ 2 ∧ 2 ≤ exInstPair.numAgents ∧
        isValidMatching exMuSharedHouse exInstPair = false) ∧
      isKStable exMuSharedHouse exInstPair 2 =
        decide (countIndividuallyImprovable exMuSharedHouse exInstPair < 2) :=
  ⟨⟨by decide, by decide, by decide⟩,
    C8_invalid_matching_not_rejected exMuSharedHouse exInstPair 2
      (by decide) (by decide) (by decide)⟩

/-- C9: stability is monotone in k — for 1 ≤ k₁ ≤ k₂ ≤ n, if
is_k_stable(μ, instance, k₁) returns true then so does
is_k_stable(μ, instance, k₂). -/
theorem C9_stability_monotone_in_k
    (m : Matching) (inst : ProblemInstance) (k1 k2 : Nat) (h1 : 1 ≤ k1)
    (h12 : k1 ≤ k2) (h2n : k2 ≤ inst.numAgents)
    (hstable : isKStable m inst k1 = true) :
    isKStable m inst k2 = true := by
  rw [isKStable_true_iff] at hstable ⊢
  omega

/-- C9 witness: monotonicity instantiated on the 3-cycle test instance
with the cyclic top assignment, k₁ = 1, k₂ = 2. -/
theorem C9_stability_monotone_in_k_witness :
    (1 ≤ 1 ∧ 1 ≤ 2 ∧ 2 ≤ generateTestCase1.numAgents ∧
        isKStable exMuCycle3 generateTestCase1 1 = true) ∧
      isKStable exMuCycle3 generateTestCase1 2 = true :=
  ⟨⟨by decide, by decide, by decide, by decide⟩,
    C9_stability_monotone_in_k exMuCycle3 generateTestCase1 1 2
      (by decide) (by decide) (by decide) (by decide)⟩

/-- C10: the random generators are deterministic in their arguments —
each call reseeds the xorshift32 stream from the seed argument,
discarding the previous generator state, so two calls with identical
arguments (and arbitrary prior states) build identical instances, with
identical preference lists for every agent. -/
theorem C10_generators_deterministic_in_seed
    (n numMen numWomen nr seed s1 s2 : Nat) :
    generateRandomHouseAllocation n seed s1 = generateRandomHouseAllocation n seed s2 ∧
    generateRandomMarriage numMen numWomen seed s1 =
      generateRandomMarriage numMen numWomen seed s2 ∧
    generateRandomRoommates nr seed s1 = generateRandomRoommates nr seed s2 :=
  ⟨rfl, rfl, rfl⟩

end StableMatchingSim
